import Mathlib

/-!
Verification of the AYAB desktop GUI (`src/ayab/ayab.py`).

The file shallowly embeds the parts of `GuiMain` and `GenericThread` that the
specification talks about: the scene-rendering geometry of `refresh_scene`,
the image transforms (`__invert_image`, `__repeat_image`) and their
error-handling harness `apply_image_transform`, the plugin switch
`set_enabled_plugin`, the knitting launcher `start_knitting_process`, and the
background-thread wrapper `GenericThread.run`.  Python exceptions are made
explicit with `Except`; Qt floating-point scene coordinates are modelled with
rationals; images are width/height plus a pixel map.
-/

namespace Ayab

/-- Geometry of one rectangle item added to the graphics scene
(`QGraphicsRectItem(x, y, w, h)`). -/
structure Rect where
  x : ℚ
  y : ℚ
  w : ℚ
  h : ℚ
deriving DecidableEq, Repr

/-- Result of one call to `GuiMain.refresh_scene`: the position given to the
pattern pixmap item (`addPixmap` puts it at the origin; `setPos` moves it for
a recognised alignment), whether the `invalid alignment` warning was logged,
and the five rectangles added to the scene. -/
structure Scene where
  patternPos : ℚ × ℚ
  warnedInvalidAlignment : Bool
  rect_orange : Rect
  rect_green : Rect
  limit_start : Rect
  limit_stop : Rect
  progress_rect : Rect
deriving DecidableEq, Repr

/-- Embedding of `GuiMain.refresh_scene` (src/ayab/ayab.py lines 244-321).
`width`/`height` are the pixmap dimensions of `self.pil_image`; the needle
positions, alignment string and progress row are the corresponding `GuiMain`
attributes.  Each call builds a brand-new `QGraphicsScene`; the pattern item
starts at the origin and is repositioned only in the three recognised
alignment branches, while the `else` branch merely logs a warning. -/
def refresh_scene (width height : ℕ) (start_needle stop_needle : ℤ)
    (imageAlignment : String) (var_progress : ℤ) : Scene :=
  let machine_width : ℚ := 200
  let bar_height : ℚ := 5
  let limit_bar_width : ℚ := 1/2
  let posWarn : (ℚ × ℚ) × Bool :=
    if imageAlignment = "left" then
      (((start_needle : ℚ) - 100, 0), false)
    else if imageAlignment = "center" then
      ((-((width : ℚ) / 2) + ((start_needle : ℚ) + (stop_needle : ℚ)) / 2 - 100, 0), false)
    else if imageAlignment = "right" then
      (((stop_needle : ℚ) - 100 - (width : ℚ), 0), false)
    else
      (((0 : ℚ), (0 : ℚ)), true)
  { patternPos := posWarn.1
    warnedInvalidAlignment := posWarn.2
    rect_orange := ⟨-(machine_width / 2), -bar_height, machine_width / 2, bar_height⟩
    rect_green := ⟨0, -bar_height, machine_width / 2, bar_height⟩
    limit_start := ⟨(start_needle : ℚ) - 101, -bar_height, limit_bar_width,
      (height : ℚ) + 2 * bar_height⟩
    limit_stop := ⟨(stop_needle : ℚ) - 100, -bar_height, limit_bar_width,
      (height : ℚ) + 2 * bar_height⟩
    progress_rect := ⟨-(machine_width / 2), (height : ℚ) - (var_progress : ℚ),
      machine_width, limit_bar_width⟩ }

/-- C1: with machine width 200 (half-width 100), rendering places the
pattern's left edge at `start − 100` in mode `left`, at
`−w/2 + (start+stop)/2 − 100` (rational division) in mode `center`, and at
`stop − 100 − w` in mode `right`; in particular for `start = 80`,
`stop = 119`, `w = 40` the left edge is `−20`, `−20.5` and `−21`
respectively. -/
theorem alignment_places_left_edge (w h : ℕ) (start stop prog : ℤ) :
    (refresh_scene w h start stop "left" prog).patternPos.1 = (start : ℚ) - 100
    ∧ (refresh_scene w h start stop "center" prog).patternPos.1
        = -((w : ℚ) / 2) + ((start : ℚ) + (stop : ℚ)) / 2 - 100
    ∧ (refresh_scene w h start stop "right" prog).patternPos.1
        = (stop : ℚ) - 100 - (w : ℚ)
    ∧ (refresh_scene 40 30 80 119 "left" 0).patternPos.1 = -20
    ∧ (refresh_scene 40 30 80 119 "center" 0).patternPos.1 = -(41/2 : ℚ)
    ∧ (refresh_scene 40 30 80 119 "right" 0).patternPos.1 = -21 := by
  refine ⟨rfl, rfl, rfl, ?_, ?_, ?_⟩
  · have e : (refresh_scene 40 30 80 119 "left" 0).patternPos.1
        = ((80 : ℤ) : ℚ) - 100 := rfl
    rw [e]; norm_num
  · have e : (refresh_scene 40 30 80 119 "center" 0).patternPos.1
        = -(((40 : ℕ) : ℚ) / 2) + (((80 : ℤ) : ℚ) + ((119 : ℤ) : ℚ)) / 2 - 100 := rfl
    rw [e]; norm_num
  · have e : (refresh_scene 40 30 80 119 "right" 0).patternPos.1
        = ((119 : ℤ) : ℚ) - 100 - ((40 : ℕ) : ℚ) := rfl
    rw [e]; norm_num

/-- C7 (counterexample): the claim places the start-needle limit marker at
`start − 100`; the code draws it at `self.start_needle - 101`.  With
`start = 80` the marker sits at `−21`, not `−20 = 80 − 100`. -/
theorem limit_marker_start_counterexample :
    (refresh_scene 40 30 80 119 "center" 0).limit_start.x ≠ -20 := by
  have e : (refresh_scene 40 30 80 119 "center" 0).limit_start.x
      = ((80 : ℤ) : ℚ) - 101 := rfl
  rw [e]; norm_num

/-- C7 (amended): for every needle range and pattern height, the two thin
vertical needle-limit markers are drawn at `start − 101` and `stop − 100`,
each starting at `−bar_height` with total height `height + 2·bar_height`
(bar height 5) and width 0.5. -/
theorem limit_marker_geometry (w h : ℕ) (start stop prog : ℤ) (mode : String) :
    (refresh_scene w h start stop mode prog).limit_start
      = ⟨(start : ℚ) - 101, -5, 1/2, (h : ℚ) + 2 * 5⟩
    ∧ (refresh_scene w h start stop mode prog).limit_stop
      = ⟨(stop : ℚ) - 100, -5, 1/2, (h : ℚ) + 2 * 5⟩ :=
  ⟨rfl, rfl⟩

/-- C6 (counterexample): the claim says an unrecognised alignment mode leaves
the pattern layer at its previous position.  Each call to `refresh_scene`
builds a fresh scene whose pattern item starts at the origin, and the
unknown-mode branch never calls `setPos`; so after a `left` render placed the
pattern at `−20`, a render with mode `"diagonal"` shows it at `0`, not at the
previous position. -/
theorem unknown_alignment_counterexample :
    (refresh_scene 40 30 80 119 "diagonal" 0).patternPos
      ≠ (refresh_scene 40 30 80 119 "left" 0).patternPos := by
  have e1 : (refresh_scene 40 30 80 119 "diagonal" 0).patternPos
      = ((0 : ℚ), (0 : ℚ)) := rfl
  have e2 : (refresh_scene 40 30 80 119 "left" 0).patternPos
      = (((80 : ℤ) : ℚ) - 100, 0) := rfl
  rw [e1, e2]
  intro hc
  have hfst := congrArg Prod.fst hc
  norm_num at hfst

/-- C6 (amended): when the alignment mode is not one of `left`/`center`/
`right`, rendering logs the `invalid alignment` warning, still draws the two
schematic halves and the two needle-limit markers, and leaves the freshly
added pattern item at the scene origin `(0, 0)` (it is never repositioned by
`setPos`). -/
theorem unknown_alignment_warns_and_draws (w h : ℕ) (start stop prog : ℤ)
    (mode : String) (h1 : mode ≠ "left") (h2 : mode ≠ "center") (h3 : mode ≠ "right") :
    (refresh_scene w h start stop mode prog).warnedInvalidAlignment = true
    ∧ (refresh_scene w h start stop mode prog).patternPos = (0, 0)
    ∧ (refresh_scene w h start stop mode prog).rect_orange = ⟨-(200 / 2), -5, 200 / 2, 5⟩
    ∧ (refresh_scene w h start stop mode prog).rect_green = ⟨0, -5, 200 / 2, 5⟩
    ∧ (refresh_scene w h start stop mode prog).limit_start
        = ⟨(start : ℚ) - 101, -5, 1/2, (h : ℚ) + 2 * 5⟩
    ∧ (refresh_scene w h start stop mode prog).limit_stop
        = ⟨(stop : ℚ) - 100, -5, 1/2, (h : ℚ) + 2 * 5⟩ := by
  simp only [refresh_scene, if_neg h1, if_neg h2, if_neg h3]
  exact ⟨trivial, trivial, trivial, trivial, trivial, trivial⟩

/-- C6 (witness): the amended theorem applied at mode `"diagonal"` with the
pattern and needle range of the specification's worked example. -/
theorem unknown_alignment_witness :
    ("diagonal" : String) ≠ "left"
    ∧ (refresh_scene 40 30 80 119 "diagonal" 0).warnedInvalidAlignment = true
    ∧ (refresh_scene 40 30 80 119 "diagonal" 0).patternPos = (0, 0)
    ∧ (refresh_scene 40 30 80 119 "diagonal" 0).rect_orange = ⟨-(200 / 2), -5, 200 / 2, 5⟩
    ∧ (refresh_scene 40 30 80 119 "diagonal" 0).rect_green = ⟨0, -5, 200 / 2, 5⟩
    ∧ (refresh_scene 40 30 80 119 "diagonal" 0).limit_start
        = ⟨((80 : ℤ) : ℚ) - 101, -5, 1/2, ((30 : ℕ) : ℚ) + 2 * 5⟩
    ∧ (refresh_scene 40 30 80 119 "diagonal" 0).limit_stop
        = ⟨((119 : ℤ) : ℚ) - 100, -5, 1/2, ((30 : ℕ) : ℚ) + 2 * 5⟩ := by
  have h := unknown_alignment_warns_and_draws 40 30 80 119 0 "diagonal"
    (by decide) (by decide) (by decide)
  exact ⟨by decide, h.1, h.2.1, h.2.2.1, h.2.2.2.1, h.2.2.2.2.1, h.2.2.2.2.2⟩

/-- RGBA pixel; channel values are bytes 0-255. -/
structure Pixel where
  r : ℕ
  g : ℕ
  b : ℕ
  a : ℕ
deriving DecidableEq, Repr

/-- Colour part of a pixel (the three RGB bands). -/
def Pixel.rgb (p : Pixel) : ℕ × ℕ × ℕ := (p.r, p.g, p.b)

/-- PIL image model: a mode string (`"RGBA"`, `"RGB"`, `"L"`, ...), the
size, and the pixel map.  By convention the pixels of an image whose mode
carries no alpha band have `a = 255` (opaque). -/
structure PImage where
  mode : String
  width : ℕ
  height : ℕ
  px : ℕ → ℕ → Pixel

/-- Embedding of `PIL.ImageOps.invert`: every colour band is mapped through
`255 - v`; mode, size and any alpha band are untouched. -/
def ImageOps_invert (image : PImage) : PImage :=
  { image with px := fun x y =>
      let p := image.px x y
      ⟨255 - p.r, 255 - p.g, 255 - p.b, p.a⟩ }

/-- Embedding of `Image.merge('RGB', (r, g, b))` applied to the three colour
bands produced by `image.split()`: the alpha band is dropped and the result
is an opaque `"RGB"` image (`a = 255` by the opacity convention). -/
def merge_rgb (image : PImage) : PImage :=
  { mode := "RGB", width := image.width, height := image.height,
    px := fun x y =>
      let p := image.px x y
      ⟨p.r, p.g, p.b, 255⟩ }

/-- Embedding of `GuiMain.__invert_image` (src/ayab/ayab.py lines 453-463):
an `"RGBA"` image is split, its colour bands re-merged into an `"RGB"` image
and inverted; any other image is inverted directly. -/
def invert_image (image : PImage) : PImage :=
  if image.mode = "RGBA" then
    ImageOps_invert (merge_rgb image)
  else
    ImageOps_invert image

/-- C8: `invert` on an RGBA pattern returns an opaque RGB image whose colour
channels are channel-wise inverted and whose transparency channel is
discarded; on a pattern without alpha all colour channels are inverted (mode
and alpha band kept).  The embedding is functional, so the input pattern is
never mutated. -/
theorem invert_inverts_and_drops_alpha (image : PImage) :
    (image.mode = "RGBA" →
      (invert_image image).mode = "RGB"
      ∧ (invert_image image).width = image.width
      ∧ (invert_image image).height = image.height
      ∧ ∀ x y, (invert_image image).px x y
          = ⟨255 - (image.px x y).r, 255 - (image.px x y).g,
             255 - (image.px x y).b, 255⟩)
    ∧ (image.mode ≠ "RGBA" →
      (invert_image image).mode = image.mode
      ∧ ∀ x y, (invert_image image).px x y
          = ⟨255 - (image.px x y).r, 255 - (image.px x y).g,
             255 - (image.px x y).b, (image.px x y).a⟩) := by
  constructor
  · intro hm
    simp only [invert_image, if_pos hm]
    exact ⟨rfl, rfl, rfl, fun x y => rfl⟩
  · intro hm
    simp only [invert_image, if_neg hm]
    exact ⟨rfl, fun x y => rfl⟩

/-- Concrete 2×1 translucent RGBA test image. -/
def imgRGBA : PImage := ⟨"RGBA", 2, 1, fun _ _ => ⟨10, 20, 30, 40⟩⟩

/-- C8 (witness): inverting the concrete translucent image yields an opaque
RGB image with inverted colour channels. -/
theorem invert_inverts_and_drops_alpha_witness :
    imgRGBA.mode = "RGBA"
    ∧ (invert_image imgRGBA).mode = "RGB"
    ∧ (invert_image imgRGBA).px 0 0 = ⟨245, 235, 225, 255⟩ := by
  have h := (invert_inverts_and_drops_alpha imgRGBA).1 rfl
  refine ⟨rfl, h.1, ?_⟩
  rw [h.2.2.2 0 0]
  decide

/-- Python exception kinds relevant to `ayab.py`: the fysom state-machine
error imported from the `fysom` package, and every other exception class,
identified by its class name. -/
inductive PyErr
  | fysomError (msg : String)
  | otherError (kind : String) (msg : String)
deriving DecidableEq, Repr

/-- Host GUI state touched by `apply_image_transform`: the current PIL image
and the enabled flag of the knit-control widget. -/
structure GuiState where
  pil_image : Option PImage
  knitcontrolEnabled : Bool

/-- Observable outcome of one `apply_image_transform` call: the state after
the call, whether the `Error on executing transform` message was logged,
the dimensions forwarded to `slotSetImageDimensions` (if any), and whether
`refresh_scene` was invoked. -/
structure TransformOutcome where
  state : GuiState
  loggedTransformError : Bool
  dimensionsSent : Option (ℕ × ℕ)
  sceneRefreshed : Bool

/-- Embedding of `GuiMain.apply_image_transform` (src/ayab/ayab.py lines
409-443).  The looked-up private transform (one of invert, repeat, mirror,
flip, rotate — each of which may raise inside PIL) is passed as an explicit
`Except`-valued function.  With no image loaded the method returns at once.
Otherwise the transform is run under `try`/bare `except`: on an exception the
local `image` variable keeps the old image, the error is logged, and the
method continues — storing the (old or new) image, disabling the knit
controls, notifying the plugin of the dimensions and redrawing. -/
def apply_image_transform (transform : PImage → Except PyErr PImage)
    (s : GuiState) : TransformOutcome :=
  match s.pil_image with
  | none =>
      { state := s, loggedTransformError := false,
        dimensionsSent := none, sceneRefreshed := false }
  | some image =>
      let res := transform image
      let image2 := match res with
        | Except.ok im2 => im2
        | Except.error _ => image
      let logged := match res with
        | Except.ok _ => false
        | Except.error _ => true
      { state := { pil_image := some image2, knitcontrolEnabled := false },
        loggedTransformError := logged,
        dimensionsSent := some (image2.width, image2.height),
        sceneRefreshed := true }

/-- C3: for every transform invocation on a loaded pattern, if the transform
raises any error then the error is caught and logged, the current pattern
afterwards is exactly the pre-call pattern, and (the embedding being a total
function) no exception propagates to the caller. -/
theorem transform_error_keeps_pattern (s : GuiState) (image : PImage)
    (transform : PImage → Except PyErr PImage) (e : PyErr)
    (himg : s.pil_image = some image) (herr : transform image = Except.error e) :
    (apply_image_transform transform s).state.pil_image = some image
    ∧ (apply_image_transform transform s).loggedTransformError = true := by
  simp [apply_image_transform, himg, herr]

/-- C3 (witness): a transform that raises `OSError` on the concrete test
image leaves it in place and logs the error. -/
theorem transform_error_keeps_pattern_witness :
    (apply_image_transform (fun _ => Except.error (PyErr.otherError "OSError" "boom"))
        { pil_image := some imgRGBA, knitcontrolEnabled := true }).state.pil_image
      = some imgRGBA
    ∧ (apply_image_transform (fun _ => Except.error (PyErr.otherError "OSError" "boom"))
        { pil_image := some imgRGBA, knitcontrolEnabled := true }).loggedTransformError
      = true :=
  transform_error_keeps_pattern _ imgRGBA _ (PyErr.otherError "OSError" "boom") rfl rfl

/-- C10: with no pattern loaded, any transform invocation returns immediately
with the state unchanged: no error logged, no dimension notification sent to
the plugin, no re-render. -/
theorem transform_noop_without_image (transform : PImage → Except PyErr PImage)
    (s : GuiState) (h : s.pil_image = none) :
    apply_image_transform transform s
      = { state := s, loggedTransformError := false,
          dimensionsSent := none, sceneRefreshed := false } := by
  simp only [apply_image_transform, h]

/-- C10 (witness): invoking a transform on the empty state is a no-op. -/
theorem transform_noop_without_image_witness :
    apply_image_transform (fun im => Except.ok im)
        { pil_image := none, knitcontrolEnabled := true }
      = { state := { pil_image := none, knitcontrolEnabled := true },
          loggedTransformError := false,
          dimensionsSent := none, sceneRefreshed := false } :=
  transform_noop_without_image _ _ rfl

/-- Outcome of `GenericThread.run`: normal return, a `FysomError` caught and
logged inside the worker, or an exception escaping the worker. -/
inductive RunOutcome
  | finished
  | absorbedFysom (msg : String)
  | propagated (e : PyErr)
deriving DecidableEq, Repr

/-- Whether a Python exception is (an instance of) `FysomError`. -/
def PyErr.isFysom : PyErr → Bool
  | PyErr.fysomError _ => true
  | PyErr.otherError _ _ => false

/-- Whether a run outcome is an absorbed (caught-and-logged) error. -/
def RunOutcome.isAbsorbed : RunOutcome → Bool
  | RunOutcome.absorbedFysom _ => true
  | _ => false

/-- Embedding of `GenericThread.run` (src/ayab/ayab.py lines 511-516): the
wrapped function is executed under `try`; only `except FysomError` is caught
(and logged); any other exception leaves `run` unhandled. -/
def GenericThread_run (function : Except PyErr Unit) : RunOutcome :=
  match function with
  | Except.ok _ => RunOutcome.finished
  | Except.error (PyErr.fysomError m) => RunOutcome.absorbedFysom m
  | Except.error (PyErr.otherError k m) => RunOutcome.propagated (PyErr.otherError k m)

/-- C4: an exception raised by the function running on the background worker
is absorbed by `GenericThread.run` if and only if it is a `FysomError`; every
other exception propagates out of the worker unrecovered. -/
theorem run_absorbs_iff_fysom (e : PyErr) :
    ((GenericThread_run (Except.error e)).isAbsorbed = true ↔ e.isFysom = true)
    ∧ (e.isFysom = false → GenericThread_run (Except.error e) = RunOutcome.propagated e) := by
  cases e <;> simp [GenericThread_run, PyErr.isFysom, RunOutcome.isAbsorbed]

/-- C4 (witness): a `ValueError` raised on the worker propagates, while the
theorem's equivalence applied to a concrete `FysomError` shows absorption. -/
theorem run_absorbs_iff_fysom_witness :
    GenericThread_run (Except.error (PyErr.otherError "ValueError" "boom"))
      = RunOutcome.propagated (PyErr.otherError "ValueError" "boom")
    ∧ (GenericThread_run (Except.error (PyErr.fysomError "bad event"))).isAbsorbed = true :=
  ⟨(run_absorbs_iff_fysom (PyErr.otherError "ValueError" "boom")).2 rfl,
   (run_absorbs_iff_fysom (PyErr.fysomError "bad event")).1.mpr rfl⟩

/-- A loaded plugin as seen by `set_enabled_plugin`: its name and the results
of invoking its `cleanup_ui` and `setup_ui` hooks on the host (either normal
return or a raised exception). -/
structure Plugin where
  name : String
  cleanup_ui : Except PyErr Unit
  setup_ui : Except PyErr Unit

/-- Hook invocations observable during a plugin switch, in call order. -/
inductive PluginEvent
  | cleanupCalled (name : String)
  | setupCalled (name : String)
deriving DecidableEq, Repr

/-- Embedding of `GuiMain.set_enabled_plugin` (src/ayab/ayab.py lines
110-128): if a plugin is currently enabled its `cleanup_ui` is invoked first,
under `try`/bare-`except: pass`, so a raise inside teardown is swallowed;
then the looked-up plugin (passed here explicitly, the yapsy lookup being
external) becomes `self.enabled_plugin`, and its `setup_ui` is invoked under
`try`/`except` that logs `no plugin object loaded`.  The returned pair is the
new enabled plugin and the ordered list of hook invocations. -/
def set_enabled_plugin (enabled_plugin : Option Plugin) (plugin_o : Plugin) :
    Option Plugin × List PluginEvent :=
  let cleanupEvents : List PluginEvent :=
    match enabled_plugin with
    | some p =>
        match p.cleanup_ui with
        | Except.ok _ => [PluginEvent.cleanupCalled p.name]
        | Except.error _ => [PluginEvent.cleanupCalled p.name]
    | none => []
  let setupEvents : List PluginEvent :=
    match plugin_o.setup_ui with
    | Except.ok _ => [PluginEvent.setupCalled plugin_o.name]
    | Except.error _ => [PluginEvent.setupCalled plugin_o.name]
  (some plugin_o, cleanupEvents ++ setupEvents)

/-- C9: whenever the enabled plugin is switched, the outgoing plugin's
`cleanup_ui` is invoked strictly before the incoming plugin's `setup_ui`,
and this holds for every outcome of the teardown hook — `p.cleanup_ui` is
universally quantified, so a teardown failure never blocks the switch: the
new plugin still becomes the enabled plugin and its setup hook is still
invoked. -/
theorem switch_runs_cleanup_before_setup (p q : Plugin) :
    set_enabled_plugin (some p) q
      = (some q, [PluginEvent.cleanupCalled p.name, PluginEvent.setupCalled q.name]) := by
  rcases hc : p.cleanup_ui with _ | e <;> rcases hs : q.setup_ui with _ | f <;>
    simp [set_enabled_plugin, hc, hs]

/-- Every GUI widget flag toggled by `start_knitting_process`, the plugin's
internal machine phase, and the jobs of all background threads started so
far (each entry is the outcome the thread's `knit` call produces, in launch
order; `self.gt` refers to the last entry). -/
structure KnitGui where
  menuToolsEnabled : Bool
  imgloadEnabled : Bool
  imageActionsEnabled : Bool
  optionsdockEnabled : Bool
  knitButtonEnabled : Bool
  cancelButtonEnabled : Bool
  coordPhase : String
  workers : List (Except PyErr Unit)

/-- Modelled from the spec: the enabled plugin's knitting routine and its
fysom state machine are not under `src/` (only the GUI that launches them
is).  Section 4.4 of the specification says `knit()` is only valid from
`Idle` and that calling it otherwise raises the state-machine
invalid-transition error (`FysomError`). -/
def plugin_knit (coordPhase : String) : Except PyErr Unit :=
  if coordPhase = "Idle" then Except.ok ()
  else Except.error (PyErr.fysomError "InvalidTransition")

/-- Embedding of `GuiMain.start_knitting_process` (src/ayab/ayab.py lines
174-185): unconditionally disables the tools menu, image-load widget, image
actions, options dock and knit button, enables the cancel button, then
constructs a fresh `GenericThread` on the enabled plugin's `knit` and starts
it — there is no check of any coordinator state before spawning. -/
def start_knitting_process (s : KnitGui) : KnitGui :=
  { s with
    menuToolsEnabled := false
    imgloadEnabled := false
    imageActionsEnabled := false
    optionsdockEnabled := false
    knitButtonEnabled := false
    cancelButtonEnabled := true
    workers := s.workers ++ [plugin_knit s.coordPhase] }

/-- GUI state with one background worker already knitting (machine phase
`Knitting`). -/
def knitGuiBusy : KnitGui :=
  { menuToolsEnabled := false, imgloadEnabled := false, imageActionsEnabled := false,
    optionsdockEnabled := false, knitButtonEnabled := false, cancelButtonEnabled := true,
    coordPhase := "Knitting", workers := [Except.ok ()] }

/-- C2 (counterexample): the claim says a `start()` while a job is running is
a no-op that launches no second background worker.  From a state with one
running worker, `start_knitting_process` leaves the worker list at length 2,
not 1: a second `GenericThread` is constructed and started unconditionally. -/
theorem second_start_spawns_second_worker :
    (start_knitting_process knitGuiBusy).workers.length ≠ 1 := by
  decide

/-- C2 (amended): calling `start()` while the plugin's machine is not `Idle`
does launch a second background worker; that worker's `knit` raises the
invalid-transition `FysomError`, which `GenericThread.run` absorbs (catches
and logs) rather than propagating, and the previously launched workers are
untouched (they form a prefix of the new worker list). -/
theorem second_start_absorbed_in_worker (s : KnitGui) (h : s.coordPhase ≠ "Idle") :
    (start_knitting_process s).workers
      = s.workers ++ [Except.error (PyErr.fysomError "InvalidTransition")]
    ∧ GenericThread_run (Except.error (PyErr.fysomError "InvalidTransition"))
      = RunOutcome.absorbedFysom "InvalidTransition"
    ∧ (start_knitting_process s).workers.take s.workers.length = s.workers := by
  have hk : plugin_knit s.coordPhase
      = Except.error (PyErr.fysomError "InvalidTransition") := by
    simp [plugin_knit, h]
  refine ⟨?_, rfl, ?_⟩
  · simp [start_knitting_process, hk]
  · simp [start_knitting_process]

/-- C2 (witness): the amended theorem applied to the busy state. -/
theorem second_start_absorbed_in_worker_witness :
    (start_knitting_process knitGuiBusy).workers
      = [Except.ok (), Except.error (PyErr.fysomError "InvalidTransition")]
    ∧ GenericThread_run (Except.error (PyErr.fysomError "InvalidTransition"))
      = RunOutcome.absorbedFysom "InvalidTransition" := by
  have h := second_start_absorbed_in_worker knitGuiBusy (by decide)
  exact ⟨h.1, h.2.1⟩

/-- Drop the alpha band of a pixel: what storing a pixel into a canvas whose
mode has no alpha band does (the canvas stays opaque). -/
def dropAlpha (p : Pixel) : Pixel := ⟨p.r, p.g, p.b, 255⟩

/-- Embedding of `Image.new('RGB', (w, h))`: a black opaque canvas. -/
def Image_new_rgb (w h : ℕ) : PImage :=
  ⟨"RGB", w, h, fun _ _ => ⟨0, 0, 0, 255⟩⟩

/-- Embedding of `dst.paste(src, (ox, oy))`: pixels inside the
`src.width × src.height` box at offset `(ox, oy)` are replaced by the
corresponding `src` pixels; pasting onto an `"RGB"` canvas stores only the
colour bands. -/
def paste (dst src : PImage) (ox oy : ℕ) : PImage :=
  { dst with px := fun x y =>
      if ox ≤ x ∧ x < ox + src.width ∧ oy ≤ y ∧ y < oy + src.height then
        (if dst.mode = "RGB" then dropAlpha (src.px (x - ox) (y - oy))
         else src.px (x - ox) (y - oy))
      else dst.px x y }

/-- Python's `range(0, stop, step)` for a positive step: the `⌈stop/step⌉`
multiples of `step` below `stop`, in increasing order. -/
def pyRange (stop step : ℕ) : List ℕ :=
  (List.range ((stop + step - 1) / step)).map (fun i => i * step)

/-- Embedding of `GuiMain.__repeat_image` (src/ayab/ayab.py lines 475-489),
with the locals `old_h = image.size[1]`, `old_w = image.size[0]`,
`new_h = old_h*args[0]`, `new_w = old_w*args[1]` inlined: a fresh
`Image.new('RGB', (new_w, new_h))` canvas over which the two nested
`range(0, new_·, old_·)` loops paste the source image. -/
def repeat_image (image : PImage) (pVertical pHorizontal : ℕ) : PImage :=
  (pyRange (image.height * pVertical) image.height).foldl
    (fun acc hh =>
      (pyRange (image.width * pHorizontal) image.width).foldl
        (fun im2 ww => paste im2 image ww hh) acc)
    (Image_new_rgb (image.width * pHorizontal) (image.height * pVertical))

lemma pyRange_mul (s n : ℕ) (hs : 0 < s) :
    pyRange (s * n) s = (List.range n).map (fun i => i * s) := by
  unfold pyRange
  have key : s * n + s - 1 = (s - 1) + s * n := by
    generalize s * n = m
    omega
  rw [key, Nat.add_mul_div_left _ _ hs, Nat.div_eq_of_lt (by omega), Nat.zero_add]

lemma foldl_mode_inv (f : PImage → ℕ → PImage)
    (hf : ∀ im w, (f im w).mode = im.mode) :
    ∀ (ws : List ℕ) (im : PImage), (ws.foldl f im).mode = im.mode := by
  intro ws
  induction ws with
  | nil => intro im; rfl
  | cons w ws ih => intro im; rw [List.foldl_cons, ih, hf]

lemma foldl_width_inv (f : PImage → ℕ → PImage)
    (hf : ∀ im w, (f im w).width = im.width) :
    ∀ (ws : List ℕ) (im : PImage), (ws.foldl f im).width = im.width := by
  intro ws
  induction ws with
  | nil => intro im; rfl
  | cons w ws ih => intro im; rw [List.foldl_cons, ih, hf]

lemma foldl_height_inv (f : PImage → ℕ → PImage)
    (hf : ∀ im w, (f im w).height = im.height) :
    ∀ (ws : List ℕ) (im : PImage), (ws.foldl f im).height = im.height := by
  intro ws
  induction ws with
  | nil => intro im; rfl
  | cons w ws ih => intro im; rw [List.foldl_cons, ih, hf]

lemma paste_px_rgb (dst src : PImage) (hd : dst.mode = "RGB") (ox oy x y : ℕ) :
    (paste dst src ox oy).px x y
      = if ox ≤ x ∧ x < ox + src.width ∧ oy ≤ y ∧ y < oy + src.height
        then dropAlpha (src.px (x - ox) (y - oy))
        else dst.px x y := by
  simp [paste, hd]

lemma mod_eq_sub_of_between (d k x : ℕ) (h1 : k * d ≤ x) (h2 : x < k * d + d) :
    x % d = x - k * d := by
  have hlt : x - k * d < d := by
    generalize k * d = M at h1 h2 ⊢
    omega
  calc x % d = (x - k * d + k * d) % d := by rw [Nat.sub_add_cancel h1]
    _ = (x - k * d) % d := Nat.add_mul_mod_self_right _ _ _
    _ = x - k * d := Nat.mod_eq_of_lt hlt

lemma pasteCols_px (src : PImage) (hh : ℕ) :
    ∀ (k : ℕ) (im : PImage), im.mode = "RGB" → ∀ (x y : ℕ),
      (((List.range k).map (fun i => i * src.width)).foldl
          (fun im2 ww => paste im2 src ww hh) im).px x y
        = if x < src.width * k ∧ hh ≤ y ∧ y < hh + src.height
          then dropAlpha (src.px (x % src.width) (y - hh))
          else im.px x y := by
  intro k
  induction k with
  | zero =>
    intro im hm x y
    simp
  | succ k ih =>
    intro im hm x y
    rw [List.range_succ, List.map_append, List.foldl_append]
    simp only [List.map_cons, List.map_nil, List.foldl_cons, List.foldl_nil]
    have hFm : (((List.range k).map (fun i => i * src.width)).foldl
        (fun im2 ww => paste im2 src ww hh) im).mode = "RGB" := by
      have hinv := foldl_mode_inv (fun im2 ww => paste im2 src ww hh)
        (fun im2 ww => rfl) ((List.range k).map (fun i => i * src.width)) im
      rw [hinv, hm]
    rw [paste_px_rgb _ _ hFm, ih im hm x y]
    have hsucc : src.width * (k + 1) = k * src.width + src.width := by
      rw [Nat.mul_succ, Nat.mul_comm src.width k]
    rw [hsucc, Nat.mul_comm src.width k]
    by_cases hA : k * src.width ≤ x ∧ x < k * src.width + src.width
        ∧ hh ≤ y ∧ y < hh + src.height
    · rw [if_pos hA, if_pos ⟨hA.2.1, hA.2.2⟩,
        mod_eq_sub_of_between src.width k x hA.1 hA.2.1]
    · rw [if_neg hA]
      by_cases hB : x < k * src.width ∧ hh ≤ y ∧ y < hh + src.height
      · have hC : x < k * src.width + src.width ∧ hh ≤ y ∧ y < hh + src.height := by
          generalize k * src.width = M at hB ⊢
          exact ⟨by omega, hB.2⟩
        rw [if_pos hB, if_pos hC]
      · have hnC : ¬(x < k * src.width + src.width ∧ hh ≤ y ∧ y < hh + src.height) := by
          generalize k * src.width = M at hA hB ⊢
          omega
        rw [if_neg hB, if_neg hnC]

lemma pasteRows_px (src : PImage) (hc : ℕ) :
    ∀ (k : ℕ) (im : PImage), im.mode = "RGB" → ∀ (x y : ℕ),
      (((List.range k).map (fun j => j * src.height)).foldl
          (fun acc hh => ((List.range hc).map (fun i => i * src.width)).foldl
              (fun im2 ww => paste im2 src ww hh) acc) im).px x y
        = if x < src.width * hc ∧ y < src.height * k
          then dropAlpha (src.px (x % src.width) (y % src.height))
          else im.px x y := by
  intro k
  induction k with
  | zero =>
    intro im hm x y
    simp
  | succ k ih =>
    intro im hm x y
    rw [List.range_succ, List.map_append, List.foldl_append]
    simp only [List.map_cons, List.map_nil, List.foldl_cons, List.foldl_nil]
    have hFm : (((List.range k).map (fun j => j * src.height)).foldl
        (fun acc hh => ((List.range hc).map (fun i => i * src.width)).foldl
            (fun im2 ww => paste im2 src ww hh) acc) im).mode = "RGB" := by
      have hinv := foldl_mode_inv
        (fun acc hh => ((List.range hc).map (fun i => i * src.width)).foldl
            (fun im2 ww => paste im2 src ww hh) acc)
        (fun acc hh => foldl_mode_inv (fun im2 ww => paste im2 src ww hh)
            (fun im2 ww => rfl) ((List.range hc).map (fun i => i * src.width)) acc)
        ((List.range k).map (fun j => j * src.height)) im
      rw [hinv, hm]
    rw [pasteCols_px src (k * src.height) hc _ hFm x y, ih im hm x y]
    have hsucc : src.height * (k + 1) = k * src.height + src.height := by
      rw [Nat.mul_succ, Nat.mul_comm src.height k]
    rw [hsucc, Nat.mul_comm src.height k]
    by_cases hA : x < src.width * hc ∧ k * src.height ≤ y ∧ y < k * src.height + src.height
    · have hC : x < src.width * hc ∧ y < k * src.height + src.height := ⟨hA.1, hA.2.2⟩
      rw [if_pos hA, if_pos hC,
        mod_eq_sub_of_between src.height k y hA.2.1 hA.2.2]
    · rw [if_neg hA]
      by_cases hB : x < src.width * hc ∧ y < k * src.height
      · have hC : x < src.width * hc ∧ y < k * src.height + src.height := by
          generalize k * src.height = M at hB ⊢
          exact ⟨hB.1, by omega⟩
        rw [if_pos hB, if_pos hC]
      · have hnC : ¬(x < src.width * hc ∧ y < k * src.height + src.height) := by
          generalize hM : k * src.height = M at hA hB ⊢
          generalize hN : src.width * hc = N at hA hB ⊢
          omega
        rw [if_neg hB, if_neg hnC]

/-- C5: for every pattern with positive dimensions and counts `v, h`,
`repeat(p, v, h)` returns a pattern of size `(p.width·h, p.height·v)` tiled
row-major with `p`: the colour content of the tile at position `(i, j)`
equals `p`'s colour content for all `0 ≤ i < h`, `0 ≤ j < v` (the
destination canvas is a fresh `"RGB"` image, so only the colour bands are
compared; there are no gaps — every in-range pixel belongs to exactly one
tile — and no overlaps). -/
theorem repeat_tiles_pattern (image : PImage) (v hcount : ℕ)
    (hW : 0 < image.width) (hH : 0 < image.height) :
    (repeat_image image v hcount).width = image.width * hcount
    ∧ (repeat_image image v hcount).height = image.height * v
    ∧ ∀ i j a b, i < hcount → j < v → a < image.width → b < image.height →
        ((repeat_image image v hcount).px
            (i * image.width + a) (j * image.height + b)).rgb
          = (image.px a b).rgb := by
  have e : repeat_image image v hcount
      = ((List.range v).map (fun j => j * image.height)).foldl
          (fun acc hh => ((List.range hcount).map (fun i => i * image.width)).foldl
              (fun im2 ww => paste im2 image ww hh) acc)
          (Image_new_rgb (image.width * hcount) (image.height * v)) := by
    unfold repeat_image
    rw [pyRange_mul _ _ hH, pyRange_mul _ _ hW]
  refine ⟨?_, ?_, ?_⟩
  · rw [e]
    have hinv := foldl_width_inv
      (fun acc hh => ((List.range hcount).map (fun i => i * image.width)).foldl
          (fun im2 ww => paste im2 image ww hh) acc)
      (fun acc hh => foldl_width_inv (fun im2 ww => paste im2 image ww hh)
          (fun im2 ww => rfl) ((List.range hcount).map (fun i => i * image.width)) acc)
      ((List.range v).map (fun j => j * image.height))
      (Image_new_rgb (image.width * hcount) (image.height * v))
    rw [hinv]; rfl
  · rw [e]
    have hinv := foldl_height_inv
      (fun acc hh => ((List.range hcount).map (fun i => i * image.width)).foldl
          (fun im2 ww => paste im2 image ww hh) acc)
      (fun acc hh => foldl_height_inv (fun im2 ww => paste im2 image ww hh)
          (fun im2 ww => rfl) ((List.range hcount).map (fun i => i * image.width)) acc)
      ((List.range v).map (fun j => j * image.height))
      (Image_new_rgb (image.width * hcount) (image.height * v))
    rw [hinv]; rfl
  · intro i j a b hi hj ha hb
    have hx : i * image.width + a < image.width * hcount := by
      calc i * image.width + a < i * image.width + image.width := by omega
        _ = (i + 1) * image.width := (Nat.succ_mul i image.width).symm
        _ ≤ hcount * image.width := Nat.mul_le_mul_right _ hi
        _ = image.width * hcount := Nat.mul_comm _ _
    have hy : j * image.height + b < image.height * v := by
      calc j * image.height + b < j * image.height + image.height := by omega
        _ = (j + 1) * image.height := (Nat.succ_mul j image.height).symm
        _ ≤ v * image.height := Nat.mul_le_mul_right _ hj
        _ = image.height * v := Nat.mul_comm _ _
    have hxm : (i * image.width + a) % image.width = a := by
      rw [Nat.add_comm, Nat.add_mul_mod_self_right, Nat.mod_eq_of_lt ha]
    have hym : (j * image.height + b) % image.height = b := by
      rw [Nat.add_comm, Nat.add_mul_mod_self_right, Nat.mod_eq_of_lt hb]
    rw [e, pasteRows_px image hcount v _ rfl,
      if_pos ⟨hx, hy⟩, hxm, hym]
    rfl

/-- C5 (witness): repeating the concrete 2×1 image 2× vertically and 3×
horizontally yields a 6×2 canvas whose tile `(1, 1)` carries the source's
colour content. -/
theorem repeat_tiles_pattern_witness :
    0 < imgRGBA.width ∧ 0 < imgRGBA.height
    ∧ (repeat_image imgRGBA 2 3).width = 6
    ∧ (repeat_image imgRGBA 2 3).height = 2
    ∧ ((repeat_image imgRGBA 2 3).px (1 * imgRGBA.width + 1)
        (1 * imgRGBA.height + 0)).rgb = (imgRGBA.px 1 0).rgb := by
  have h := repeat_tiles_pattern imgRGBA 2 3 (by decide) (by decide)
  refine ⟨by decide, by decide, ?_, ?_,
    h.2.2 1 1 1 0 (by decide) (by decide) (by decide) (by decide)⟩
  · rw [h.1]; decide
  · rw [h.2.1]; decide

end Ayab
